import Mathlib

/-!
Verification development for the RakurekoTwitCasting recording pipeline.

The definitions below are a shallow embedding of the Python sources
`src/recording_options.py`, `src/authenticated_recording.py` and
`src/auth_core.py`.  Pure string manipulation is modelled over `List Char`
with structural recursion so that every definition evaluates by kernel
reduction; Python exceptions are modelled as explicit `Option`/`Except`
results or as boolean outcome parameters; wall-clock sleeping is modelled
by accumulating the slept seconds.
-/

namespace RakuRec

/-! ### Generic string helpers (kernel-computable) -/

/-- Joins a list of strings with a separator, as Python str.join does. -/
def joinSep (sep : String) : List String → String
  | [] => ""
  | [x] => x
  | x :: y :: xs => x ++ sep ++ joinSep sep (y :: xs)

/-- Tab-separated join, the layout of a Netscape cookie line. -/
def tsv (fields : List String) : String := joinSep "\t" fields

/-- Rendering of a Python bool by str/repr: True or False. -/
def pyBoolStr (b : Bool) : String := if b then "True" else "False"

/-- Rendering of a Python string by repr (single quotes, no escaping needed
for the inputs considered here). -/
def pyStrRepr (s : String) : String := "\x27" ++ s ++ "\x27"

/-- True when pat occurs as a contiguous substring of cs.  Models the
Python expression pat in s. -/
def listContainsSub (pat : List Char) : List Char → Bool
  | [] => pat.isEmpty
  | c :: rest => pat.isPrefixOf (c :: rest) || listContainsSub pat rest

/-- Worker for splitOnChars; fuel bounds the recursion by the input length. -/
def splitOnAuxL (sep : List Char) : Nat → List Char → List Char → List (List Char)
  | 0, _, acc => [acc.reverse]
  | _ + 1, [], acc => [acc.reverse]
  | fuel + 1, c :: rest, acc =>
    if sep.isPrefixOf (c :: rest) then
      acc.reverse :: splitOnAuxL sep fuel ((c :: rest).drop sep.length) []
    else
      splitOnAuxL sep fuel rest (c :: acc)

/-- Splitting on a non-empty separator, as Python str.split(sep) does. -/
def splitOnChars (sep cs : List Char) : List (List Char) :=
  splitOnAuxL sep cs.length cs []

/-! ### Data model: session status and recording options

`SessionStatus` mirrors the string constants of class `SessionStatus` in
`authenticated_recording.py`; `RecordingOptions` mirrors the dataclass in
`recording_options.py`, fields in declaration order with their defaults. -/

inductive SessionStatus where
  | initializing
  | browser_starting
  | authenticating
  | waiting_for_stream
  | recording
  | completed
  | failed
  | stopped
  | error
  deriving DecidableEq

structure RecordingOptions where
  confirmed_by_user : Bool := false
  password : Option String := none
  headless : Bool := false
  timeout_minutes : Int := 180
  quality : String := "best"
  session_name : Option String := none
  auto_retry : Bool := true
  max_retries : Int := 3
  retry_base_delay : Int := 5
  deriving DecidableEq

/-- The valid_qualities list of RecordingOptions.__post_init__. -/
def valid_qualities : List String := ["best", "worst", "hd", "medium", "low"]

/-- Embedding of RecordingOptions.__post_init__: the three raised
ValueErrors become Except.error with the message of the source, and an
out-of-list quality is silently replaced by best. -/
def post_init (o : RecordingOptions) : Except String RecordingOptions :=
  if o.timeout_minutes < 1 then Except.error "timeout_minutes must be >= 1"
  else if o.max_retries < 0 then Except.error "max_retries must be >= 0"
  else if o.retry_base_delay < 1 then Except.error "retry_base_delay must be >= 1"
  else if valid_qualities.contains o.quality then Except.ok o
  else Except.ok { o with quality := "best" }

/-- Rendering of the password entry in RecordingOptions.__repr__: a truthy
(non-None, non-empty) value is masked as three stars, a falsy one is shown
by ordinary repr. -/
def reprPasswordField : Option String → String
  | none => "password=None"
  | some p => if p = "" then "password=" ++ pyStrRepr p
              else "password=" ++ pyStrRepr "***"

/-- Rendering of an optional string field by Python repr. -/
def pyOptStrRepr : Option String → String
  | none => "None"
  | some s => pyStrRepr s

/-- Embedding of RecordingOptions.__repr__: iterates over __dict__ in field
declaration order, masking only the password entry. -/
def repr_options (o : RecordingOptions) : String :=
  "RecordingOptions(" ++ joinSep ", " [
    "confirmed_by_user=" ++ pyBoolStr o.confirmed_by_user,
    reprPasswordField o.password,
    "headless=" ++ pyBoolStr o.headless,
    "timeout_minutes=" ++ toString o.timeout_minutes,
    "quality=" ++ pyStrRepr o.quality,
    "session_name=" ++ pyOptStrRepr o.session_name,
    "auto_retry=" ++ pyBoolStr o.auto_retry,
    "max_retries=" ++ toString o.max_retries,
    "retry_base_delay=" ++ toString o.retry_base_delay
  ] ++ ")"

/-! ### Retry loop of _execute_recording_session_with_retry

One inner attempt (`_execute_recording_session`) either returns True
(success), returns False (failure; the inner function catches its own
exceptions), or raises through to the wrapper (only possible outside the
inner try, e.g. cancellation); `AttemptResult` models the three cases.
The embedding returns the status written by the wrapper (`some failed`
after exhaustion, `none` when the wrapper returns early on success), the
number of attempts performed (the final value of session.retry_count) and
the list of back-off sleeps in seconds, in order. -/

inductive AttemptResult where
  | ok
  | fail
  | exn
  deriving DecidableEq

/-- Worker for the while-loop; fuel is the remaining loop capacity
(maxRetries - count on entry). -/
def retryRun (maxRetries baseDelay : Nat) (attempt : Nat → AttemptResult) :
    Nat → Nat → Option SessionStatus × Nat × List Nat
  | count, 0 => (some SessionStatus.failed, count, [])
  | count, fuel + 1 =>
    if count < maxRetries then
      match attempt (count + 1) with
      | AttemptResult.ok => (none, count + 1, [])
      | AttemptResult.fail =>
        if count + 1 < maxRetries then
          let d := baseDelay * 2 ^ (count + 1 - 1)
          let r := retryRun maxRetries baseDelay attempt (count + 1) fuel
          (r.1, r.2.1, d :: r.2.2)
        else
          retryRun maxRetries baseDelay attempt (count + 1) fuel
      | AttemptResult.exn =>
        if count + 1 < maxRetries then
          let d := baseDelay * 2 ^ (count + 1)
          let r := retryRun maxRetries baseDelay attempt (count + 1) fuel
          (r.1, r.2.1, d :: r.2.2)
        else
          retryRun maxRetries baseDelay attempt (count + 1) fuel
    else (some SessionStatus.failed, count, [])

/-- Embedding of _execute_recording_session_with_retry for a fresh session
(retry_count starts at 0). -/
def execute_recording_session_with_retry (maxRetries baseDelay : Nat)
    (attempt : Nat → AttemptResult) : Option SessionStatus × Nat × List Nat :=
  retryRun maxRetries baseDelay attempt 0 maxRetries

/-! ### start_authenticated_recording (controller entry point)

The session registry `active_sessions` is a string-keyed dictionary; the
embedding keeps it as an association list with insertion-order semantics,
`dictInsert` matching Python dict assignment.  The generated id (time and
uuid based in `_generate_session_id`) is nondeterministic and passed in as
a parameter.  The third result component records whether the asynchronous
recording task (the only place any network or browser activity starts) was
spawned. -/

/-- Session record; the fields the controller mutates. -/
structure RecordingSession where
  session_id : String
  url : String
  username : String
  status : SessionStatus
  retry_count : Nat
  deriving DecidableEq

/-- Marker scanned for by the username regex in _extract_username. -/
def tcMarker : List Char := "twitcasting.tv/".toList

/-- Scans every start position for the marker followed by at least one
character that is neither a slash nor a question mark, as the regex
search for twitcasting.tv/([^/\x3f]+) does. -/
def regexUserAt : List Char → Option (List Char)
  | [] => none
  | c :: rest =>
    if tcMarker.isPrefixOf (c :: rest) then
      let user := ((c :: rest).drop tcMarker.length).takeWhile
        fun ch => !(ch == '/' || ch == '?')
      if user.isEmpty then regexUserAt rest else some user
    else regexUserAt rest

/-- Fallback branch of _extract_username: last slash component, cut at the
first question mark, or unknown when the URL has no slash. -/
def fallbackUsername (url : String) : String :=
  if url.toList.contains '/' then
    String.mk (((splitOnChars ['/'] url.toList).getLastD []).takeWhile (· != '?'))
  else "unknown"

/-- Embedding of AuthenticatedRecordingEngine._extract_username. -/
def extract_username (url : String) : String :=
  match regexUserAt url.toList with
  | some user => String.mk user
  | none => fallbackUsername url

/-- Python dict assignment d[k] = v on an insertion-ordered assoc list. -/
def dictInsert (k : String) (v : RecordingSession) :
    List (String × RecordingSession) → List (String × RecordingSession)
  | [] => [(k, v)]
  | (k2, v2) :: rest =>
    if k2 = k then (k, v) :: rest else (k2, v2) :: dictInsert k v rest

/-- The session id: options.session_name or the generated id, with the
Python or treating the empty string as falsy. -/
def sessionIdFor (options : RecordingOptions) (genId : String) : String :=
  match options.session_name with
  | none => genId
  | some s => if s = "" then genId else s

/-- Embedding of start_authenticated_recording.  Returns the boolean
result, the updated active_sessions registry, and whether the recording
task was spawned. -/
def start_authenticated_recording (sessions : List (String × RecordingSession))
    (url : String) (options : RecordingOptions) (genId : String) :
    Bool × List (String × RecordingSession) × Bool :=
  let username := extract_username url
  let sid := sessionIdFor options genId
  if !options.confirmed_by_user then
    (false, sessions, false)
  else
    let s : RecordingSession :=
      { session_id := sid, url := url, username := username,
        status := SessionStatus.initializing, retry_count := 0 }
    (true, dictInsert sid s sessions, true)

/-! ### Barrier handling (auth_core.TwitCastingAuth.handle_stream_barriers)

A page is modelled by the locator counts the function probes plus two
booleans saying whether the bounded post-click settles succeed (a settle
timeout raises, which the surrounding try turns into a False return).
Clicking .first on an empty submit-button locator also raises, hence the
submitButtonCount test in the password branch. -/

structure StreamPage where
  ageButtonCount : Nat
  ageSettleOk : Bool
  passwordInputCount : Nat
  submitButtonCount : Nat
  passwordSettleOk : Bool
  deriving DecidableEq

/-- Embedding of handle_stream_barriers: age step first (absence is not an
error), then the shared-password prompt, which without a supplied password
returns False. -/
def handle_stream_barriers (page : StreamPage) (password : Option String) : Bool :=
  if page.ageButtonCount > 0 && !page.ageSettleOk then false
  else if page.passwordInputCount > 0 then
    match password with
    | none => false
    | some _ => page.submitButtonCount > 0 && page.passwordSettleOk
  else true

/-! ### Manifest watcher

Two implementations exist in the source.  The primary one is the polling
loop of LimitedStreamAuth.authenticate_for_stream: a response handler that
overwrites m3u8_url with every response whose URL contains .m3u8, and a
loop of max_wait / wait_interval iterations, each sleeping 1 s (between the
two scroll nudges) plus wait_interval s, that breaks once m3u8_url is set
and otherwise falls back to the original page URL.  The secondary one is
AuthenticatedRecordingEngine._wait_for_stream_start, a first-match
page.expect_response that yields none on timeout.

Responses are grouped into windows: windows[k] lists the URLs whose
responses arrive between the k-th and the (k+1)-th loop check.  The
second result component of the loop is the total seconds slept. -/

/-- True when the URL contains the manifest marker .m3u8. -/
def hasM3u8 (url : String) : Bool := listContainsSub ".m3u8".toList url.toList

/-- The max_wait constant (seconds) of authenticate_for_stream. -/
def max_wait : Nat := 300

/-- The wait_interval constant (seconds) of authenticate_for_stream. -/
def wait_interval : Nat := 5

/-- Seconds slept per loop iteration: the 1 s pause between the two scroll
nudges plus the wait_interval sleep. -/
def perIterSleep : Nat := 1 + wait_interval

/-- Number of loop iterations: range(0, max_wait, wait_interval). -/
def watch_iterations : Nat := max_wait / wait_interval

/-- The response handler folded over one window: every matching response
overwrites the detected URL. -/
def observeResponses (m : Option String) (urls : List String) : Option String :=
  urls.foldl (fun acc u => if hasM3u8 u then some u else acc) m

/-- The polling loop: check the detected URL, break if set; otherwise let
the responses of the next window arrive while sleeping perIterSleep
seconds.  When the iterations run out, the final check falls back to the
original page URL. -/
def detectLoop (pageUrl : String) : Nat → Option String → List (List String) → String × Nat
  | 0, m, _ =>
    (match m with
     | some u => u
     | none => pageUrl, 0)
  | fuel + 1, m, ws =>
    match m with
    | some u => (u, 0)
    | none =>
      let r := detectLoop pageUrl fuel (observeResponses m (ws.headD [])) ws.tail
      (r.1, r.2 + perIterSleep)

/-- The m3u8 detection phase of authenticate_for_stream: returns the URL
handed to the capture tool and the seconds slept while waiting. -/
def detect_m3u8 (pageUrl : String) (windows : List (List String)) : String × Nat :=
  detectLoop pageUrl watch_iterations none windows

/-- Same detection phase together with the detected_via tag of the result
dictionary (m3u8_response or fallback_url); success is always reported. -/
def detect_result (pageUrl : String) (windows : List (List String)) :
    String × String × Nat :=
  let r := detect_m3u8 pageUrl windows
  (r.1, if hasM3u8 r.1 then "m3u8_response" else "fallback_url", r.2)

/-- Embedding of _wait_for_stream_start: page.expect_response returns the
first response satisfying the predicate among those arriving within the
timeout, and none (a caught timeout error) when no match arrives. -/
def wait_for_stream_start (responses : List String) : Option String :=
  responses.find? hasM3u8

/-! ### Cookie serialization

Two serializers write the flat cookie file in authenticated_recording.py:
_export_fresh_cookies iterates over the structured cookies of the browser
context, _create_netscape_cookie_file splits a raw name=value; name=value
header.  Both write one tab-separated line per cookie. -/

/-- Structured cookie as returned by the browser context. -/
structure BrowserCookie where
  domain : String
  path : String
  secure : Bool
  expires : Int
  name : String
  value : String
  deriving DecidableEq

/-- The data line of _export_fresh_cookies: wildcard flag hardcoded TRUE,
the secure flag interpolated as the Python bool (True or False), expiry
hardcoded 0. -/
def export_cookie_line (c : BrowserCookie) : String :=
  tsv [c.domain, "TRUE", c.path, pyBoolStr c.secure, "0", c.name, c.value]

/-- The data lines written by _export_fresh_cookies, in cookie order. -/
def export_fresh_cookie_lines (cs : List BrowserCookie) : List String :=
  cs.map export_cookie_line

/-- The data line _create_netscape_cookie_file writes for one header pair,
after name, value = pair.split(eq-sign, 1): wildcard flag TRUE, path /,
secure FALSE, expiry 0. -/
def header_cookie_line (domain : String) (pair : List Char) : String :=
  tsv [domain, "TRUE", "/", "FALSE", "0",
       String.mk (pair.takeWhile (· != '=')),
       String.mk ((pair.dropWhile (· != '=')).drop 1)]

/-- The data lines written by _create_netscape_cookie_file: the header is
split on the two-character separator, and only pairs containing an equals
sign are written. -/
def create_netscape_cookie_lines (domain : String) (header : String) : List String :=
  ((splitOnChars "; ".toList header.toList).filter
    (fun p => p.contains '=')).map (header_cookie_line domain)

/-- True when the string starts with a dot. -/
def startsWithDot (s : String) : Bool :=
  match s.toList with
  | [] => false
  | c :: _ => c == '.'

/-- Modelled from the words of the specification (section 4.1), for
comparison with the code serializers: wildcard flag TRUE exactly when the
domain starts with a dot, secure rendered TRUE or FALSE, expiry the epoch
value of the cookie. -/
def spec_cookie_line (c : BrowserCookie) : String :=
  tsv [c.domain, if startsWithDot c.domain then "TRUE" else "FALSE", c.path,
       if c.secure then "TRUE" else "FALSE", toString c.expires, c.name, c.value]

/-- The amended per-cookie format actually produced by
_export_fresh_cookies, written out field by field. -/
def amended_cookie_line (c : BrowserCookie) : String :=
  tsv [c.domain, "TRUE", c.path, if c.secure then "True" else "False", "0",
       c.name, c.value]

/-! ### Capture process supervision (_monitor_recording_process)

The relevant observable behaviour given the subprocess exit code and
whether the expected output file exists at the temporary location: the
status written to the session and whether the file was renamed (moved,
not copied) into the final recordings directory. -/

/-- Embedding of the exit-code branch of _monitor_recording_process. -/
def monitor_recording_process (returncode : Int) (output_file_exists : Bool) :
    SessionStatus × Bool :=
  if returncode = 0 then
    (SessionStatus.completed, output_file_exists)
  else
    (SessionStatus.failed, false)

/-! ### Cookie staleness (auth_core.TwitCastingAuth.needs_refresh) -/

/-- Default of the cookie_refresh_hours attribute set in __init__. -/
def cookie_refresh_hours : Int := 24

/-- Embedding of needs_refresh.  Times are epoch seconds; mtime is none
when reading the modification time raises (the except branch). -/
def needs_refresh (cookies_json_exists : Bool) (mtime : Option Int)
    (now refreshHours : Int) : Bool :=
  if !cookies_json_exists then true
  else
    match mtime with
    | none => true
    | some t => decide (now - t > refreshHours * 3600)

/-! ## Theorems -/

/-- C7: needs_refresh returns true exactly when the cached snapshot file
does not exist, or reading its modification time fails, or its age exceeds
the refresh interval, whose default is 24 hours; otherwise false. -/
theorem needs_refresh_correct (ex : Bool) (mt : Option Int) (now h : Int) :
    (needs_refresh ex mt now h = true ↔
      ex = false ∨ mt = none ∨ ∃ t, mt = some t ∧ now - t > h * 3600) ∧
    cookie_refresh_hours = 24 := by
  refine ⟨?_, rfl⟩
  cases ex <;> cases mt <;> simp [needs_refresh]

/-- C6 counterexample: a capture subprocess exiting 0 with the output file
missing leaves the session in plain COMPLETED status with no move, which
is not a failure condition distinct from the non-zero-exit failure. -/
theorem monitor_missing_file_cex :
    monitor_recording_process 0 false = (SessionStatus.completed, false) ∧
    SessionStatus.completed ≠ SessionStatus.failed := by
  decide

/-- C6 amended: on zero exit the session is marked COMPLETED whether or not
the output file exists; the file is renamed (moved) into the final store
exactly when it exists; a missing file on zero exit is not reported as a
failure.  Non-zero exit marks the session FAILED with no move. -/
theorem monitor_exit_behavior (rc : Int) (ex : Bool) :
    (rc = 0 → monitor_recording_process rc ex = (SessionStatus.completed, ex)) ∧
    (rc ≠ 0 → monitor_recording_process rc ex = (SessionStatus.failed, false)) := by
  constructor
  · intro h; simp [monitor_recording_process, h]
  · intro h; simp [monitor_recording_process, h]

/-- C6 witness: the amended behaviour evaluated at exit code 0 with the
file present and at exit code 1. -/
theorem monitor_exit_behavior_witness :
    monitor_recording_process 0 true = (SessionStatus.completed, true) ∧
    monitor_recording_process 1 false = (SessionStatus.failed, false) :=
  ⟨(monitor_exit_behavior 0 true).1 rfl, (monitor_exit_behavior 1 false).2 (by decide)⟩

/-- C10: a successfully constructed RecordingOptions satisfies the three
bounds and has a quality from the valid list; violating a bound yields a
ValueError; a quality outside the list is silently replaced by best. -/
theorem post_init_invariants (o r : RecordingOptions) :
    (post_init o = Except.ok r →
      1 ≤ r.timeout_minutes ∧ 0 ≤ r.max_retries ∧ 1 ≤ r.retry_base_delay ∧
      r.quality ∈ valid_qualities) ∧
    ((o.timeout_minutes < 1 ∨ o.max_retries < 0 ∨ o.retry_base_delay < 1) →
      ∃ msg, post_init o = Except.error msg) ∧
    (1 ≤ o.timeout_minutes → 0 ≤ o.max_retries → 1 ≤ o.retry_base_delay →
      o.quality ∉ valid_qualities →
      post_init o = Except.ok { o with quality := "best" }) := by
  unfold post_init
  split_ifs with h1 h2 h3 h4
  · exact ⟨by simp, fun _ => ⟨_, rfl⟩, fun ht _ _ _ => absurd h1 (by omega)⟩
  · exact ⟨by simp, fun _ => ⟨_, rfl⟩, fun _ hr _ _ => absurd h2 (by omega)⟩
  · exact ⟨by simp, fun _ => ⟨_, rfl⟩, fun _ _ hd _ => absurd h3 (by omega)⟩
  · refine ⟨?_, ?_, ?_⟩
    · intro hok
      have hr : r = o := by
        cases hok
        rfl
      subst hr
      refine ⟨by omega, by omega, by omega, ?_⟩
      simpa using h4
    · intro hbad
      rcases hbad with hb | hb | hb <;> omega
    · intro _ _ _ hq
      exact absurd (by simpa using h4) hq
  · refine ⟨?_, ?_, ?_⟩
    · intro hok
      have hr : r = { o with quality := "best" } := by
        cases hok
        rfl
      subst hr
      exact ⟨by simpa using by omega, by simpa using by omega, by simpa using by omega,
        by simp [valid_qualities]⟩
    · intro hbad
      rcases hbad with hb | hb | hb <;> omega
    · intro _ _ _ _
      rfl

/-- C10 witness: the default options pass validation unchanged. -/
theorem post_init_invariants_witness :
    1 ≤ ({} : RecordingOptions).timeout_minutes ∧
    0 ≤ ({} : RecordingOptions).max_retries ∧
    1 ≤ ({} : RecordingOptions).retry_base_delay ∧
    ({} : RecordingOptions).quality ∈ valid_qualities :=
  (post_init_invariants {} {}).1 rfl

/-- C3: with a password-type input present and no password supplied the
barrier pass returns failure, and on a page with no barrier elements it
returns success. -/
theorem pass_barriers_password_check (page : StreamPage) (pwd : Option String) :
    (page.passwordInputCount > 0 → handle_stream_barriers page none = false) ∧
    (page.ageButtonCount = 0 → page.passwordInputCount = 0 →
      handle_stream_barriers page pwd = true) := by
  constructor
  · intro h
    unfold handle_stream_barriers
    split
    · rfl
    · simp [h]
  · intro h1 h2
    simp [handle_stream_barriers, h1, h2]

/-- C3 witness: a page with age button, password input and submit button
but no password fails; a bare page with any password succeeds. -/
theorem pass_barriers_password_check_witness :
    handle_stream_barriers ⟨1, true, 2, 1, true⟩ none = false ∧
    handle_stream_barriers ⟨0, true, 0, 0, true⟩ (some "secret") = true :=
  ⟨(pass_barriers_password_check ⟨1, true, 2, 1, true⟩ none).1 (by decide),
   (pass_barriers_password_check ⟨0, true, 0, 0, true⟩ (some "secret")).2 rfl rfl⟩

/-- C2: without the user-confirmation flag, start_authenticated_recording
returns false, registers no session, and spawns no recording task (hence
no network or browser activity begins). -/
theorem start_without_confirmation (sessions : List (String × RecordingSession))
    (url : String) (options : RecordingOptions) (genId : String)
    (h : options.confirmed_by_user = false) :
    start_authenticated_recording sessions url options genId =
      (false, sessions, false) := by
  simp [start_authenticated_recording, h]

/-- C2 witness: default options (confirmation unset) on an empty registry. -/
theorem start_without_confirmation_witness :
    start_authenticated_recording [] "https://twitcasting.tv/alice" {} "gen" =
      (false, [], false) :=
  start_without_confirmation [] "https://twitcasting.tv/alice" {} "gen" rfl

/-- C9 counterexample: options whose session_name equals the non-empty
password.  The password entry itself is masked, yet the password value
appears verbatim in the dump through the session_name field, refuting the
claim that the value never appears in the output. -/
theorem repr_password_leak_cex :
    ({ password := some "hunter2", session_name := some "hunter2" } :
        RecordingOptions).password = some "hunter2" ∧
    ("hunter2" : String) ≠ "" ∧
    listContainsSub "hunter2".toList
      (repr_options { password := some "hunter2",
                      session_name := some "hunter2" }).toList = true := by
  decide

/-- C9 amended: the password field itself is masked: for a non-empty
password the entry is the constant string password=(three stars), and the
dumps of two options differing only in their non-empty passwords are
identical; an equal string held by another field can still appear. -/
theorem repr_password_masked (o : RecordingOptions) (p1 p2 : String)
    (h1 : p1 ≠ "") (h2 : p2 ≠ "") :
    reprPasswordField (some p1) = "password=" ++ pyStrRepr "***" ∧
    repr_options { o with password := some p1 } =
      repr_options { o with password := some p2 } := by
  constructor
  · simp [reprPasswordField, h1]
  · simp [repr_options, reprPasswordField, h1, h2]

/-- C9 witness: two default-based options with different non-empty
passwords produce the same dump. -/
theorem repr_password_masked_witness :
    repr_options { ({} : RecordingOptions) with password := some "a" } =
      repr_options { ({} : RecordingOptions) with password := some "longsecret" } :=
  (repr_password_masked {} "a" "longsecret" (by decide) (by decide)).2

/-- C5 counterexample: for a secure cookie on a non-wildcard domain the
line written by _export_fresh_cookies differs from the specified layout
(wildcard flag is hardcoded TRUE and the secure flag is written as the
Python bool True), and the header path writes a pair with a missing name
instead of skipping it. -/
theorem cookie_serialize_cex :
    export_cookie_line ⟨"twitcasting.tv", "/", true, 0, "sid", "abc"⟩ ≠
      spec_cookie_line ⟨"twitcasting.tv", "/", true, 0, "sid", "abc"⟩ ∧
    export_cookie_line ⟨"twitcasting.tv", "/", true, 0, "sid", "abc"⟩ =
      "twitcasting.tv\tTRUE\t/\tTrue\t0\tsid\tabc" ∧
    create_netscape_cookie_lines "twitcasting.tv" "=abc" =
      ["twitcasting.tv\tTRUE\t/\tFALSE\t0\t\tabc"] := by
  decide

/-- Pointwise agreement of the code serializer with the amended format. -/
theorem export_line_eq_amended (c : BrowserCookie) :
    export_cookie_line c = amended_cookie_line c := by
  cases hc : c.secure <;>
    simp [export_cookie_line, amended_cookie_line, pyBoolStr, hc]

/-- C5 amended: serialization never fails and writes one tab-separated
line per structured cookie in the format domain, TRUE (hardcoded), path,
secure as the Python bool True or False, 0 (hardcoded), name, value; the
header path writes one line per name=value pair and skips only the pairs
that contain no equals sign (a pair with empty name or value is still
written). -/
theorem cookie_serialize_format (cs : List BrowserCookie) (domain header : String) :
    export_fresh_cookie_lines cs = cs.map amended_cookie_line ∧
    (export_fresh_cookie_lines cs).length = cs.length ∧
    (create_netscape_cookie_lines domain header).length =
      ((splitOnChars "; ".toList header.toList).filter
        (fun p => p.contains '=')).length := by
  refine ⟨?_, by simp [export_fresh_cookie_lines], by
    simp [create_netscape_cookie_lines]⟩
  unfold export_fresh_cookie_lines
  rw [show export_cookie_line = amended_cookie_line from funext export_line_eq_amended]

/-- Closed form of the retry loop when every attempt fails: the loop
performs the remaining attempts up to maxRetries, sleeps
baseDelay * 2 ^ (n - 1) after each failed attempt n except the last, and
ends with status FAILED. -/
theorem retryRun_all_fail (m b : Nat) :
    ∀ fuel count, count + fuel = m →
    retryRun m b (fun _ => AttemptResult.fail) count fuel =
      (some SessionStatus.failed, m,
        (List.range (m - 1 - count)).map fun k => b * 2 ^ (count + k)) := by
  intro fuel
  induction fuel with
  | zero =>
    intro count h
    have hc : count = m := by omega
    have hz : m - 1 - count = 0 := by omega
    rw [hz]
    simp [retryRun, hc]
  | succ fuel ih =>
    intro count h
    have hlt : count < m := by omega
    rw [retryRun]
    simp only [hlt, if_pos]
    by_cases h2 : count + 1 < m
    · rw [if_pos h2, ih (count + 1) (by omega)]
      have hr : m - 1 - count = (m - 1 - (count + 1)) + 1 := by omega
      rw [hr, List.range_succ_eq_map, List.map_cons, List.map_map]
      have hfun : ((fun k => b * 2 ^ (count + k)) ∘ Nat.succ) =
          fun k => b * 2 ^ (count + 1 + k) := by
        funext k
        have : count + Nat.succ k = count + 1 + k := by omega
        simp [Function.comp, this]
      simp [hfun, Nat.add_zero]
    · rw [if_neg h2, ih (count + 1) (by omega)]
      have hc : count = m - 1 := by omega
      have hz : m - 1 - count = 0 := by omega
      have hz2 : m - 1 - (count + 1) = 0 := by omega
      simp [hz, hz2]

/-- C1: when every attempt fails, the controller performs exactly
max_retries attempts, sleeping base_delay * 2 ^ (n - 1) seconds after
failed attempt n for each n below max_retries, and the session ends in
terminal FAILED status; the RecordingOptions defaults are max_retries = 3
and retry_base_delay = 5. -/
theorem retry_exhaustion_failed (m b : Nat) :
    execute_recording_session_with_retry m b (fun _ => AttemptResult.fail) =
      (some SessionStatus.failed, m, (List.range (m - 1)).map fun n => b * 2 ^ n) ∧
    ({} : RecordingOptions).max_retries = 3 ∧
    ({} : RecordingOptions).retry_base_delay = 5 := by
  refine ⟨?_, rfl, rfl⟩
  have h := retryRun_all_fail m b m 0 (by omega)
  simpa using h

/-- A detected manifest URL ends the loop immediately at the next check. -/
theorem detectLoop_detected (p u : String) :
    ∀ (fuel : Nat) (ws : List (List String)), detectLoop p fuel (some u) ws = (u, 0) := by
  intro fuel ws
  cases fuel <;> rfl

/-- A window with no matching response leaves the handler state empty. -/
theorem observeResponses_no_match :
    ∀ w : List String, (∀ r ∈ w, hasM3u8 r = false) →
    observeResponses none w = none := by
  intro w
  induction w with
  | nil => intro _; rfl
  | cons a rest ih =>
    intro h
    have ha : hasM3u8 a = false := h a (List.mem_cons_self a rest)
    have hstep : observeResponses none (a :: rest) =
        observeResponses (if hasM3u8 a then some a else none) rest := rfl
    rw [hstep, ha]
    exact ih fun r hr => h r (List.mem_cons_of_mem a hr)

/-- With no match in any window the loop runs all its iterations, sleeping
perIterSleep seconds in each, and keeps no detected URL. -/
theorem detectLoop_no_match (p : String) :
    ∀ (fuel : Nat) (ws : List (List String)),
    (∀ w ∈ ws, observeResponses none w = none) →
    detectLoop p fuel none ws = (p, perIterSleep * fuel) := by
  intro fuel
  induction fuel with
  | zero => intro ws _; simp [detectLoop]
  | succ fuel ih =>
    intro ws h
    cases ws with
    | nil =>
      have hstep : detectLoop p (fuel + 1) none [] =
          ((detectLoop p fuel (observeResponses none []) []).1,
           (detectLoop p fuel (observeResponses none []) []).2 + perIterSleep) := rfl
      rw [hstep]
      have hobs : observeResponses none ([] : List String) = none := rfl
      rw [hobs, ih [] (by simp)]
      simp [Nat.mul_succ]
    | cons w rest =>
      have hw : observeResponses none w = none := h w (List.mem_cons_self w rest)
      have hstep : detectLoop p (fuel + 1) none (w :: rest) =
          ((detectLoop p fuel (observeResponses none w) rest).1,
           (detectLoop p fuel (observeResponses none w) rest).2 + perIterSleep) := rfl
      rw [hstep, hw, ih rest (fun x hx => h x (List.mem_cons_of_mem w hx))]
      simp [Nat.mul_succ]

/-- When the windows before the k-th are match-free and the k-th window
ends the handler with URL u, the loop returns u after k + 1 iterations. -/
theorem detectLoop_match_window (p u : String) (w : List String)
    (rest : List (List String)) (hw : observeResponses none w = some u) :
    ∀ (pre : List (List String)) (fuel : Nat),
      (∀ x ∈ pre, observeResponses none x = none) → pre.length < fuel →
      detectLoop p fuel none (pre ++ w :: rest) =
        (u, perIterSleep * (pre.length + 1)) := by
  intro pre
  induction pre with
  | nil =>
    intro fuel _ hlen
    cases fuel with
    | zero => omega
    | succ fuel =>
      have hstep : detectLoop p (fuel + 1) none ([] ++ w :: rest) =
          ((detectLoop p fuel (observeResponses none w) rest).1,
           (detectLoop p fuel (observeResponses none w) rest).2 + perIterSleep) := rfl
      rw [hstep, hw, detectLoop_detected]
      simp
  | cons x pre2 ih =>
    intro fuel h hlen
    cases fuel with
    | zero => exact absurd hlen (Nat.not_lt_zero _)
    | succ fuel =>
      have hx : observeResponses none x = none := h x (List.mem_cons_self x pre2)
      have hstep : detectLoop p (fuel + 1) none ((x :: pre2) ++ w :: rest) =
          ((detectLoop p fuel (observeResponses none x) (pre2 ++ w :: rest)).1,
           (detectLoop p fuel (observeResponses none x) (pre2 ++ w :: rest)).2
             + perIterSleep) := rfl
      rw [hstep, hx,
        ih fuel (fun y hy => h y (List.mem_cons_of_mem x hy)) (by simpa using hlen)]
      simp [Nat.mul_succ, List.length_cons]

/-- Skipping non-matching responses, expect_response yields the first
matching one. -/
theorem find_first_match (m : String) (rs2 : List String) (hm : hasM3u8 m = true) :
    ∀ rs1 : List String, (∀ r ∈ rs1, hasM3u8 r = false) →
    (rs1 ++ m :: rs2).find? hasM3u8 = some m := by
  intro rs1
  induction rs1 with
  | nil => intro _; simp [List.find?, hm]
  | cons a rest ih =>
    intro h
    have ha : hasM3u8 a = false := h a (List.mem_cons_self a rest)
    rw [List.cons_append, List.find?_cons_of_neg _ (by simp [ha])]
    exact ih fun r hr => h r (List.mem_cons_of_mem a hr)

/-- C4 counterexample: two matching responses arrive in the same polling
window; the primary watcher returns the second URL, not the first, so a
later match replaced the first while the loop had not yet checked. -/
theorem watcher_first_match_cex :
    detect_m3u8 "https://twitcasting.tv/alice"
      [["https://cdn.test/first.m3u8", "https://cdn.test/second.m3u8"]] =
      ("https://cdn.test/second.m3u8", 6) ∧
    ["https://cdn.test/first.m3u8", "https://cdn.test/second.m3u8"].find? hasM3u8 =
      some "https://cdn.test/first.m3u8" ∧
    ("https://cdn.test/second.m3u8" : String) ≠ "https://cdn.test/first.m3u8" := by
  decide

/-- C4 amended: the primary watcher returns the URL held by the handler at
the first poll check after a match, i.e. the last matching response of the
first window containing a match (a later match arriving in the same
polling window overwrites an earlier one, and matches after the wait ends
never change the result); the secondary watcher _wait_for_stream_start
does return the first matching response. -/
theorem watcher_last_match_of_window (p u m : String) (w rs1 rs2 : List String)
    (pre rest : List (List String))
    (hpre : ∀ x ∈ pre, observeResponses none x = none)
    (hlen : pre.length < watch_iterations)
    (hw : observeResponses none w = some u)
    (h1 : ∀ r ∈ rs1, hasM3u8 r = false)
    (hm : hasM3u8 m = true) :
    detect_m3u8 p (pre ++ w :: rest) = (u, perIterSleep * (pre.length + 1)) ∧
    (∀ (w2 : List String) (v : String), hasM3u8 v = true →
      observeResponses none (w2 ++ [v]) = some v) ∧
    wait_for_stream_start (rs1 ++ m :: rs2) = some m := by
  refine ⟨detectLoop_match_window p u w rest hw pre watch_iterations hpre hlen,
    ?_, find_first_match m rs2 hm rs1 h1⟩
  intro w2 v hv
  simp [observeResponses, List.foldl_append, hv]

/-- C4 witness: an empty first window, then a window with one match; the
loop returns it after two iterations; the secondary watcher skips a
non-matching response and returns the first match. -/
theorem watcher_last_match_of_window_witness :
    detect_m3u8 "https://twitcasting.tv/alice"
      [[], ["https://cdn.test/w.m3u8"]] = ("https://cdn.test/w.m3u8", 12) ∧
    wait_for_stream_start ["https://cdn.test/x.ts", "https://cdn.test/y.m3u8"] =
      some "https://cdn.test/y.m3u8" := by
  have h := watcher_last_match_of_window "https://twitcasting.tv/alice"
    "https://cdn.test/w.m3u8" "https://cdn.test/y.m3u8" ["https://cdn.test/w.m3u8"]
    ["https://cdn.test/x.ts"] [] [[]] []
    (by decide) (by decide) (by decide) (by decide) (by decide)
  exact ⟨h.1.trans (by decide), h.2.2⟩

/-- C8 counterexample: with no matching response the primary watcher sleeps
360 seconds, which exceeds the 300-second bound by 60 seconds (twelve
polling intervals, not at most one), and then reports success with the
original page URL as a fallback instead of returning null. -/
theorem watcher_timeout_cex :
    detect_result "https://twitcasting.tv/alice" [] =
      ("https://twitcasting.tv/alice", "fallback_url", 360) ∧
    360 > max_wait + wait_interval ∧
    max_wait = 300 ∧ wait_interval = 5 := by
  decide

/-- C8 amended: when no matching response occurs the primary watcher
terminates after all 60 iterations, having slept 360 seconds for the
configured 300-second bound, and falls back to the original page URL
rather than null; only the secondary watcher _wait_for_stream_start
returns null on timeout. -/
theorem watcher_timeout_fallback (p : String) (windows : List (List String))
    (h : ∀ w ∈ windows, observeResponses none w = none) :
    detect_m3u8 p windows = (p, perIterSleep * watch_iterations) ∧
    perIterSleep * watch_iterations = 360 ∧
    max_wait + wait_interval < perIterSleep * watch_iterations ∧
    (∀ rs : List String, (∀ r ∈ rs, hasM3u8 r = false) →
      wait_for_stream_start rs = none) := by
  refine ⟨detectLoop_no_match p watch_iterations windows h, by decide, by decide, ?_⟩
  intro rs h2
  simp only [wait_for_stream_start, List.find?_eq_none]
  intro r hr
  simp [h2 r hr]

/-- C8 witness: a run whose only window holds a non-matching response. -/
theorem watcher_timeout_fallback_witness :
    detect_m3u8 "https://twitcasting.tv/alice" [["https://cdn.test/a.ts"]] =
      ("https://twitcasting.tv/alice", 360) ∧
    wait_for_stream_start ["https://cdn.test/a.ts"] = none := by
  have h := watcher_timeout_fallback "https://twitcasting.tv/alice"
    [["https://cdn.test/a.ts"]] (by decide)
  exact ⟨h.1.trans (by decide), h.2.2.2 ["https://cdn.test/a.ts"] (by decide)⟩

end RakuRec
